import Mathlib

/-!
Verification of the Wi-Fi lifecycle core of the ESPIDF-WiFi-Configuration
firmware (`WifiManager.cpp` / `WifiManager.h`).

The development shallowly embeds the parts of `WifiManager` that carry the
specified behaviour:

* the radio/IP event handler (`WifiManager::eventHandler`) as a transition
  function on an explicit record of the instance fields it touches
  (`m_retry_num`, `m_is_connected`, `m_current_ip`) together with the two
  bits of the FreeRTOS event group (`WIFI_CONNECTED_BIT`, `WIFI_FAIL_BIT`);
* the NVS credential store (`saveCredentials` / `loadCredentials`) over an
  association-list model of the namespace;
* the `POST /connect` handler (`connectPostHandler`) including the 127-byte
  receive buffer and the SDK's query-string extraction;
* the radio / web-server mode switching (`connectToWifi`,
  `startProvisioning`, `stopWifi`, `startWebServer`, `stopWebServer`,
  `start`) as step sequences on a system-state record, so that intermediate
  (observable) states of a mode switch are captured.

External SDK calls (FreeRTOS, esp-netif, esp-wifi, httpd, NVS) are modelled
by their documented effect on the embedded state; calls whose failure is
outside the core's control (`nvs_open`, `nvs_commit`, `httpd_start`) are
modelled as succeeding.
-/

namespace ESPWifi

/-- `MAX_RETRY` from `WifiManager.h`: maximum number of reconnection
attempts before giving up. -/
def MAX_RETRY : Nat := 5

/-- The mutable fields of a `WifiManager` instance touched by
`WifiManager::eventHandler`, plus the two event-group bits.
`retry_num` models the `uint8_t m_retry_num`. -/
structure WMState where
  retry_num : Nat
  is_connected : Bool
  current_ip : String
  connectedBit : Bool
  failBit : Bool
  deriving Repr, DecidableEq

/-- State right after the `WifiManager` constructor: `m_is_connected = false`,
`m_retry_num = 0`, `m_current_ip` default-constructed empty, and a freshly
created event group (all bits clear). -/
def initialState : WMState :=
  { retry_num := 0, is_connected := false, current_ip := "",
    connectedBit := false, failBit := false }

/-- The three events `WifiManager::eventHandler` reacts to:
`WIFI_EVENT_STA_START`, `WIFI_EVENT_STA_DISCONNECTED`, and
`IP_EVENT_STA_GOT_IP` carrying the four octets of the assigned address. -/
inductive WifiEvent where
  | staStart
  | staDisconnected
  | staGotIp (a b c d : Nat)
  deriving Repr, DecidableEq

/-- Whether an event is an `IP_EVENT_STA_GOT_IP` address event. -/
def WifiEvent.isGotIp : WifiEvent → Bool
  | .staGotIp _ _ _ _ => true
  | _ => false

/-- `snprintf(ip_str, 16, IPSTR, IP2STR(ip))`: dotted-quad rendering into a
16-byte buffer, hence at most 15 characters of output. -/
def formatIp (a b c d : Nat) : String :=
  (toString a ++ "." ++ toString b ++ "." ++ toString c ++ "." ++ toString d).take 15

/-- `WifiManager::eventHandler`, one event at a time.

* `WIFI_EVENT_STA_START`: calls `esp_wifi_connect()` (a radio command, no
  field of the instance changes);
* `WIFI_EVENT_STA_DISCONNECTED`: if `m_retry_num < MAX_RETRY`, reconnect and
  increment the `uint8_t` counter (reduction mod 256 embeds the width);
  otherwise clear `m_is_connected` and set `WIFI_FAIL_BIT`;
* `IP_EVENT_STA_GOT_IP`: format the address into `m_current_ip`, zero the
  counter, set `m_is_connected` and `WIFI_CONNECTED_BIT`. -/
def eventHandler (st : WMState) (e : WifiEvent) : WMState :=
  match e with
  | .staStart => st
  | .staDisconnected =>
      if st.retry_num < MAX_RETRY then
        { st with retry_num := (st.retry_num + 1) % 256 }
      else
        { st with is_connected := false, failBit := true }
  | .staGotIp a b c d =>
      { st with current_ip := formatIp a b c d, retry_num := 0,
                is_connected := true, connectedBit := true }

/-- Delivering a sequence of events to the handler. -/
def runEvents (st : WMState) (es : List WifiEvent) : WMState :=
  es.foldl eventHandler st

theorem runEvents_nil (st : WMState) : runEvents st [] = st := rfl

theorem runEvents_cons (st : WMState) (e : WifiEvent) (es : List WifiEvent) :
    runEvents st (e :: es) = runEvents (eventHandler st e) es := rfl

theorem runEvents_append (st : WMState) (l₁ l₂ : List WifiEvent) :
    runEvents st (l₁ ++ l₂) = runEvents (runEvents st l₁) l₂ :=
  List.foldl_append ..

/-- Closed form of a burst of `n` consecutive disconnect events from a state
whose counter is within bounds: the counter saturates at `MAX_RETRY` and the
fail bit fires exactly when the burst pushes `retry_num + n` past it. -/
theorem runEvents_replicate_disc (st : WMState) (h : st.retry_num ≤ 5) (n : Nat) :
    runEvents st (List.replicate n .staDisconnected) =
      { st with retry_num := min (st.retry_num + n) 5,
                is_connected := if 6 ≤ st.retry_num + n then false else st.is_connected,
                failBit := st.failBit || decide (6 ≤ st.retry_num + n) } := by
  induction n with
  | zero =>
      simp only [List.replicate, runEvents_nil]
      have h1 : min st.retry_num 5 = st.retry_num := Nat.min_eq_left h
      have h2 : ¬ (6 ≤ st.retry_num) := by omega
      simp [h1, h2]
  | succ n ih =>
      rw [List.replicate_succ', runEvents_append, ih]
      by_cases hlt : st.retry_num + n < 5
      · have hmin : min (st.retry_num + n) 5 = st.retry_num + n := by omega
        have hmin' : min (st.retry_num + (n + 1)) 5 = st.retry_num + n + 1 := by omega
        have h6 : ¬ (6 ≤ st.retry_num + n) := by omega
        have h6' : ¬ (6 ≤ st.retry_num + (n + 1)) := by omega
        have hmod : (st.retry_num + n + 1) % 256 = st.retry_num + n + 1 :=
          Nat.mod_eq_of_lt (by omega)
        simp [runEvents, eventHandler, MAX_RETRY, hmin, hmin', hlt, h6, h6', hmod,
          Nat.add_assoc]
        omega
      · have hmin : min (st.retry_num + n) 5 = 5 := by omega
        have hmin' : min (st.retry_num + (n + 1)) 5 = 5 := by omega
        have h6' : 6 ≤ st.retry_num + (n + 1) := by omega
        simp [runEvents, eventHandler, MAX_RETRY, hmin, hmin', hlt, h6']

/-- One event keeps the retry counter within `MAX_RETRY` (the handler only
increments it under the guard `m_retry_num < MAX_RETRY`). -/
theorem eventHandler_retry_le (st : WMState) (e : WifiEvent)
    (h : st.retry_num ≤ MAX_RETRY) : (eventHandler st e).retry_num ≤ MAX_RETRY := by
  cases e with
  | staStart => exact h
  | staDisconnected =>
      simp only [eventHandler]
      by_cases hlt : st.retry_num < MAX_RETRY
      · rw [if_pos hlt]
        simp only [MAX_RETRY] at *
        omega
      · rw [if_neg hlt]
        exact h
  | staGotIp a b c d => simp [eventHandler, MAX_RETRY]

/-- Any event sequence keeps the retry counter within `MAX_RETRY`. -/
theorem runEvents_retry_le (es : List WifiEvent) :
    ∀ st : WMState, st.retry_num ≤ MAX_RETRY →
      (runEvents st es).retry_num ≤ MAX_RETRY := by
  induction es with
  | nil => intro st h; exact h
  | cons e es ih =>
      intro st h
      rw [runEvents_cons]
      exact ih _ (eventHandler_retry_le st e h)

/-- Along a sequence containing no address event, the handler never sets
`WIFI_CONNECTED_BIT`. -/
theorem runEvents_connectedBit (es : List WifiEvent) :
    ∀ st : WMState, st.connectedBit = false →
      es.all (fun e => !e.isGotIp) = true →
      (runEvents st es).connectedBit = false := by
  induction es with
  | nil => intro st hst _; exact hst
  | cons e es ih =>
      intro st hst h
      rw [List.all_cons, Bool.and_eq_true] at h
      rw [runEvents_cons]
      have hst' : (eventHandler st e).connectedBit = false := by
        cases e with
        | staStart => exact hst
        | staDisconnected =>
            by_cases hlt : st.retry_num < MAX_RETRY <;> simp [eventHandler, hlt, hst]
        | staGotIp a b c d => simp [WifiEvent.isGotIp] at h
      exact ih _ hst' h.2

/-- C1 counterexample: from a fresh instance, 5 consecutive
`WIFI_EVENT_STA_DISCONNECTED` events do NOT set `WIFI_FAIL_BIT` (the first 5
disconnects only increment the counter 0 → 5); the bit is first set by the
6th disconnect. This refutes the claim that after 5 consecutive disconnects
`FailedBit` is signaled and that a 6th disconnect does not signal. -/
theorem c1_counterexample :
    (runEvents initialState (List.replicate 5 .staDisconnected)).failBit = false ∧
    (runEvents initialState (List.replicate 6 .staDisconnected)).failBit = true := by
  constructor <;> rfl

/-- C1 (amended): after `n` consecutive disconnects with no intervening
address event, `WIFI_FAIL_BIT` is set exactly when `n ≥ 6 = MAX_RETRY + 1`
(so it is first set by the 6th disconnect and further disconnects leave it
set), and the retry counter equals `min n MAX_RETRY` (incremented on each of
the first 5 disconnects, then saturated). -/
theorem c1_retry_bound (n : Nat) :
    (runEvents initialState (List.replicate n .staDisconnected)).failBit
      = decide (MAX_RETRY + 1 ≤ n) ∧
    (runEvents initialState (List.replicate n .staDisconnected)).retry_num
      = min n MAX_RETRY := by
  rw [runEvents_replicate_disc initialState (by decide) n]
  constructor <;> simp [initialState, MAX_RETRY]

/-- C2: evaluation at the failing input. After an address assignment
(`192.168.1.42`) followed by 6 disconnects, `m_is_connected` is false while
`m_current_ip` still reads `"192.168.1.42"`: `getIpAddress()` is non-empty
although `isConnected()` is false, contradicting the documented
"empty string if not connected" contract (the handler never clears
`m_current_ip`). -/
theorem c2_stale_ip_after_disconnect :
    (runEvents initialState
      (WifiEvent.staGotIp 192 168 1 42 :: List.replicate 6 .staDisconnected)).is_connected
      = false ∧
    (runEvents initialState
      (WifiEvent.staGotIp 192 168 1 42 :: List.replicate 6 .staDisconnected)).current_ip
      = "192.168.1.42" := by
  constructor <;> rfl

/-- C3 counterexample: nothing in the code ever clears the event-group bits,
and after 6 disconnects (setting `WIFI_FAIL_BIT`) followed by a got-address
event (setting `WIFI_CONNECTED_BIT`) both bits are set simultaneously,
before the supervisor has consumed either — refuting "at most one bit is set
before the Supervisor consumes it". -/
theorem c3_counterexample :
    (runEvents initialState
      (List.replicate 6 .staDisconnected ++ [.staGotIp 10 0 0 1])).connectedBit = true ∧
    (runEvents initialState
      (List.replicate 6 .staDisconnected ++ [.staGotIp 10 0 0 1])).failBit = true := by
  constructor <;> rfl

/-- C3 (amended): the event group is created with both flags clear, so both
flags are clear when the supervisor enters its single per-boot connection
attempt; and as long as no address event is delivered, `WIFI_CONNECTED_BIT`
stays clear (so at most `WIFI_FAIL_BIT` is set). The code contains no
explicit clear, and both bits can be set at once if an address event follows
retry exhaustion. -/
theorem c3_flags_cleared :
    initialState.connectedBit = false ∧ initialState.failBit = false ∧
    ∀ es : List WifiEvent, es.all (fun e => !e.isGotIp) = true →
      (runEvents initialState es).connectedBit = false := by
  refine ⟨rfl, rfl, ?_⟩
  intro es h
  exact runEvents_connectedBit es initialState rfl h

/-- Witness for C3 (amended) at a concrete disconnect-only sequence. -/
theorem c3_flags_cleared_witness :
    (runEvents initialState
      [WifiEvent.staDisconnected, WifiEvent.staStart]).connectedBit = false :=
  c3_flags_cleared.2.2 [WifiEvent.staDisconnected, WifiEvent.staStart] (by decide)

/-- C4 counterexample: a disconnect, then an address event (which resets the
counter to 0), then 5 more consecutive disconnects do NOT set
`WIFI_FAIL_BIT`: after the reset the counter only reaches 5 and the fail
branch requires a further disconnect. -/
theorem c4_counterexample :
    (runEvents initialState
      ([.staDisconnected, .staGotIp 192 168 1 42]
        ++ List.replicate 5 .staDisconnected)).failBit = false := by
  rfl

/-- C4 (amended): the retry counter resets to zero on every address
assignment, and a disconnect followed by an address event followed by `n`
more consecutive disconnects sets `WIFI_FAIL_BIT` exactly when
`n ≥ MAX_RETRY + 1 = 6` (so 6 more disconnects are needed, not 5). -/
theorem c4_retry_reset :
    (∀ (st : WMState) (a b c d : Nat),
      (eventHandler st (.staGotIp a b c d)).retry_num = 0) ∧
    ∀ n : Nat,
      (runEvents initialState
        ([.staDisconnected, .staGotIp 192 168 1 42]
          ++ List.replicate n .staDisconnected)).failBit
        = decide (MAX_RETRY + 1 ≤ n) := by
  constructor
  · intro st a b c d; rfl
  · intro n
    rw [runEvents_append]
    have hmid : runEvents initialState [.staDisconnected, .staGotIp 192 168 1 42]
        = { retry_num := 0, is_connected := true, current_ip := formatIp 192 168 1 42,
            connectedBit := true, failBit := false } := rfl
    rw [hmid, runEvents_replicate_disc _ (by decide) n]
    simp [MAX_RETRY]

/-- C9: the retry counter starts at zero, is reset to zero by every address
event, is incremented (as a `uint8_t`) only when strictly below `MAX_RETRY`
and left unchanged by a disconnect otherwise, and consequently stays at most
`MAX_RETRY = 5` in every reachable state. -/
theorem c9_retry_invariant :
    initialState.retry_num = 0 ∧
    (∀ (st : WMState) (a b c d : Nat),
      (eventHandler st (.staGotIp a b c d)).retry_num = 0) ∧
    (∀ st : WMState, (eventHandler st .staDisconnected).retry_num
      = if st.retry_num < MAX_RETRY then (st.retry_num + 1) % 256 else st.retry_num) ∧
    ∀ es : List WifiEvent, (runEvents initialState es).retry_num ≤ MAX_RETRY := by
  refine ⟨rfl, fun st a b c d => rfl, ?_, ?_⟩
  · intro st
    by_cases hlt : st.retry_num < MAX_RETRY <;> simp [eventHandler, hlt]
  · intro es
    exact runEvents_retry_le es initialState (by decide)

/-- NVS key for the SSID, from `config.h`. -/
def NVS_KEY_WIFI_SSID : String := "wifi_ssid"

/-- NVS key for the password, from `config.h`. -/
def NVS_KEY_WIFI_PASS : String := "wifi_pass"

/-- The `"storage"` NVS namespace: a key/value association list of
NUL-terminated strings. -/
abbrev Nvs := List (String × String)

/-- `nvs_get_str`: look a key up in the namespace. -/
def nvsGetStr : Nvs → String → Option String
  | [], _ => none
  | (k, v) :: rest, key => if k = key then some v else nvsGetStr rest key

/-- `nvs_set_str`: bind a key in the namespace, replacing any prior value. -/
def nvsSetStr : Nvs → String → String → Nvs
  | [], key, v => [(key, v)]
  | (k, v') :: rest, key, v =>
      if k = key then (key, v) :: rest else (k, v') :: nvsSetStr rest key v

theorem nvsGetStr_setStr_same (st : Nvs) (key v : String) :
    nvsGetStr (nvsSetStr st key v) key = some v := by
  induction st with
  | nil => simp [nvsSetStr, nvsGetStr]
  | cons kv rest ih =>
      obtain ⟨k, v'⟩ := kv
      by_cases h : k = key
      · simp [nvsSetStr, h, nvsGetStr]
      · simp [nvsSetStr, h, nvsGetStr, ih]

theorem nvsGetStr_setStr_other (st : Nvs) (key key' v : String) (h : key ≠ key') :
    nvsGetStr (nvsSetStr st key v) key' = nvsGetStr st key' := by
  induction st with
  | nil => simp [nvsSetStr, nvsGetStr, h]
  | cons kv rest ih =>
      obtain ⟨k, v'⟩ := kv
      by_cases hk : k = key
      · subst hk
        simp [nvsSetStr, nvsGetStr, h]
      · simp [nvsSetStr, hk, nvsGetStr, ih]

/-- Result of `WifiManager::loadCredentials`: `ESP_OK` with the two strings,
or the `ESP_ERR_NVS_NOT_FOUND` propagated when the SSID key is absent. -/
inductive LoadResult where
  | ok (ssid password : String)
  | notFound
  deriving Repr, DecidableEq

/-- Whether a load returned `ESP_OK`. -/
def LoadResult.isOk : LoadResult → Bool
  | .ok _ _ => true
  | .notFound => false

/-- `WifiManager::saveCredentials`: `nvs_set_str` of `wifi_ssid` then of
`wifi_pass`, then `nvs_commit`. `nvs_open` and `nvs_commit` are modelled as
succeeding (storage availability is the environment's concern). -/
def saveCredentials (st : Nvs) (ssid password : String) : Nvs :=
  nvsSetStr (nvsSetStr st NVS_KEY_WIFI_SSID ssid) NVS_KEY_WIFI_PASS password

/-- `WifiManager::loadCredentials`: a missing `wifi_ssid` key aborts with the
not-found error; a missing `wifi_pass` key is mapped to the empty password
(open-network convention). -/
def loadCredentials (st : Nvs) : LoadResult :=
  match nvsGetStr st NVS_KEY_WIFI_SSID with
  | none => .notFound
  | some ssid =>
      match nvsGetStr st NVS_KEY_WIFI_PASS with
      | none => .ok ssid ""
      | some pass => .ok ssid pass

/-- C6: `save(s, p)` followed by `load()` returns `(s, p)` byte-exact (in
particular an empty password round-trips as empty); `load()` succeeds if and
only if the `wifi_ssid` key exists; and when `wifi_ssid` exists but
`wifi_pass` does not, the password comes back empty. -/
theorem c6_credential_round_trip :
    (∀ (st : Nvs) (s p : String), loadCredentials (saveCredentials st s p) = .ok s p) ∧
    (∀ st : Nvs, (loadCredentials st).isOk = (nvsGetStr st NVS_KEY_WIFI_SSID).isSome) ∧
    (∀ (st : Nvs) (s : String), nvsGetStr st NVS_KEY_WIFI_SSID = some s →
      nvsGetStr st NVS_KEY_WIFI_PASS = none → loadCredentials st = .ok s "") := by
  refine ⟨?_, ?_, ?_⟩
  · intro st s p
    have hp : nvsGetStr (saveCredentials st s p) NVS_KEY_WIFI_PASS = some p :=
      nvsGetStr_setStr_same ..
    have hs : nvsGetStr (saveCredentials st s p) NVS_KEY_WIFI_SSID = some s := by
      unfold saveCredentials
      rw [nvsGetStr_setStr_other _ _ _ _ (by decide)]
      exact nvsGetStr_setStr_same ..
    simp [loadCredentials, hs, hp]
  · intro st
    unfold loadCredentials
    cases h : nvsGetStr st NVS_KEY_WIFI_SSID with
    | none => simp [LoadResult.isOk]
    | some s => cases nvsGetStr st NVS_KEY_WIFI_PASS <;> simp [LoadResult.isOk]
  · intro st s hs hp
    simp [loadCredentials, hs, hp]

/-- Witness for C6 at a concrete store holding only the SSID key. -/
theorem c6_credential_round_trip_witness :
    loadCredentials [("wifi_ssid", "HomeNet")] = .ok "HomeNet" "" :=
  c6_credential_round_trip.2.2 [("wifi_ssid", "HomeNet")] "HomeNet" (by decide) (by decide)

/-- Splitting a character sequence at the `&` separators of a URL-encoded
form body. -/
def splitAmp : List Char → List (List Char)
  | [] => [[]]
  | x :: xs =>
      match splitAmp xs with
      | [] => if x = '&' then [[], []] else [[x]]
      | seg :: rest => if x = '&' then [] :: seg :: rest else (x :: seg) :: rest

/-- Extraction of `key=value` from a URL-encoded form body, as performed by
the SDK helper `httpd_query_key_value` (not part of this repository,
modelled from its interface): the first `&`-separated segment starting with
`key=` yields the remainder of that segment; no matching segment is the
not-found error. -/
def findQueryValue (qs key : String) : Option String :=
  (splitAmp qs.data).findSome? fun seg =>
    if (key.data ++ ['=']).isPrefixOf seg then
      some ⟨seg.drop (key.data.length + 1)⟩
    else none

/-- Result of `httpd_query_key_value` against a destination buffer of a
given size: `ESP_OK` with the value, key not found, or
`ESP_ERR_HTTPD_RESULT_TRUNC` with the value cut to the buffer. -/
inductive QueryRes where
  | ok (v : String)
  | notFound
  | truncated (v : String)
  deriving Repr, DecidableEq

/-- `httpd_query_key_value(qs, key, buf, bufLen)`: a value needing more than
`bufLen` bytes (terminator included) is truncated and reported as such. -/
def queryKeyValue (qs key : String) (bufLen : Nat) : QueryRes :=
  match findQueryValue qs key with
  | none => .notFound
  | some v => if bufLen ≤ v.length then .truncated (v.take (bufLen - 1)) else .ok v

/-- Outcome of `httpd_req_recv` into the handler's 128-byte buffer. -/
inductive RecvResult where
  | data (body : String)
  | timeout
  | sockErr
  deriving Repr, DecidableEq

/-- HTTP response produced by `connectPostHandler`: the confirmation page,
`400 Bad Request`, `408 Request Timeout`, or no response at all (socket
error path). -/
inductive HttpStatus where
  | ok200
  | badRequest400
  | timeout408
  | noResponse
  deriving Repr, DecidableEq

/-- Observable outcome of one `POST /connect` request: the response status,
the NVS contents afterwards, and whether `esp_restart()` was issued. -/
structure PostOutcome where
  status : HttpStatus
  nvs : Nvs
  restart : Bool
  deriving Repr, DecidableEq

/-- The content of the handler's `pass` buffer after the `password`
extraction, whose error code the handler ignores: the value on success, the
cut value on truncation, and the untouched zeroed buffer (empty string) when
the key is absent. -/
def passwordValue : QueryRes → String
  | .ok v => v
  | .truncated v => v
  | .notFound => ""

/-- The password the handler ends up with for a given receive buffer. -/
def passwordOf (buf : String) : String :=
  passwordValue (queryKeyValue buf "password" 65)

/-- The branch of `connectPostHandler` on the result of the `ssid`
extraction into its 33-byte buffer: any result other than `ESP_OK` answers
`400 Bad Request` and neither writes nor restarts; on `ESP_OK` the
credentials are saved, the confirmation page sent, and a restart issued. -/
def postProcess (st : Nvs) (password : String) : QueryRes → PostOutcome
  | .notFound => { status := .badRequest400, nvs := st, restart := false }
  | .truncated _ => { status := .badRequest400, nvs := st, restart := false }
  | .ok ssid =>
      { status := .ok200, nvs := saveCredentials st ssid password, restart := true }

/-- Body of `WifiManager::connectPostHandler` after a successful receive:
at most 127 bytes of body are read (`char buf[128]`, `sizeof(buf) - 1`). -/
def connectPostBody (body : String) (st : Nvs) : PostOutcome :=
  postProcess st (passwordOf (body.take 127)) (queryKeyValue (body.take 127) "ssid" 33)

/-- `WifiManager::connectPostHandler`: a receive timeout answers 408, any
other receive failure produces no response, and a received body is parsed
by `connectPostBody`. -/
def connectPostHandler (recv : RecvResult) (st : Nvs) : PostOutcome :=
  match recv with
  | .timeout => { status := .timeout408, nvs := st, restart := false }
  | .sockErr => { status := .noResponse, nvs := st, restart := false }
  | .data body => connectPostBody body st

/-- C5: for a body that fits the receive buffer, carrying `ssid` (≤ 32
bytes) and `password` (≤ 64 bytes) keys, `POST /connect` writes exactly that
pair and issues a restart; a body missing the `ssid` key answers 400 with no
write and no restart; a body with `ssid` but no `password` key writes
`(ssid, "")`. -/
theorem c5_post_contract :
    (∀ (body s p : String) (st : Nvs), body.take 127 = body →
      findQueryValue body "ssid" = some s → s.length ≤ 32 →
      findQueryValue body "password" = some p → p.length ≤ 64 →
      connectPostHandler (.data body) st
        = { status := .ok200, nvs := saveCredentials st s p, restart := true }) ∧
    (∀ (body : String) (st : Nvs), body.take 127 = body →
      findQueryValue body "ssid" = none →
      connectPostHandler (.data body) st
        = { status := .badRequest400, nvs := st, restart := false }) ∧
    (∀ (body s : String) (st : Nvs), body.take 127 = body →
      findQueryValue body "ssid" = some s → s.length ≤ 32 →
      findQueryValue body "password" = none →
      connectPostHandler (.data body) st
        = { status := .ok200, nvs := saveCredentials st s "", restart := true }) := by
  refine ⟨?_, ?_, ?_⟩
  · intro body s p st hb hs hslen hp hplen
    have h1 : queryKeyValue body "ssid" 33 = .ok s := by
      simp only [queryKeyValue, hs]
      rw [if_neg (by omega)]
    have h2 : passwordOf body = p := by
      simp only [passwordOf, queryKeyValue, hp]
      rw [if_neg (by omega)]
      rfl
    simp only [connectPostHandler, connectPostBody, hb, h1, h2, postProcess]
  · intro body st hb hs
    have h1 : queryKeyValue body "ssid" 33 = .notFound := by
      simp only [queryKeyValue, hs]
    simp only [connectPostHandler, connectPostBody, hb, h1, postProcess]
  · intro body s st hb hs hslen hp
    have h1 : queryKeyValue body "ssid" 33 = .ok s := by
      simp only [queryKeyValue, hs]
      rw [if_neg (by omega)]
    have h2 : passwordOf body = "" := by
      simp only [passwordOf, queryKeyValue, hp]
      rfl
    simp only [connectPostHandler, connectPostBody, hb, h1, h2, postProcess]

set_option maxRecDepth 8000 in
/-- Witness for C5 at the three concrete bodies of the POST contract. -/
theorem c5_post_contract_witness :
    connectPostHandler (.data "ssid=Foo&password=Bar") []
      = { status := .ok200, nvs := saveCredentials [] "Foo" "Bar", restart := true } ∧
    connectPostHandler (.data "password=Bar") []
      = { status := .badRequest400, nvs := [], restart := false } ∧
    connectPostHandler (.data "ssid=Open") []
      = { status := .ok200, nvs := saveCredentials [] "Open" "", restart := true } := by
  refine ⟨c5_post_contract.1 "ssid=Foo&password=Bar" "Foo" "Bar" [] ?_ ?_ ?_ ?_ ?_,
          c5_post_contract.2.1 "password=Bar" [] ?_ ?_,
          c5_post_contract.2.2 "ssid=Open" "Open" [] ?_ ?_ ?_ ?_⟩ <;> decide

/-- Radio operating mode as programmed by `esp_wifi_set_mode`. -/
inductive WifiMode where
  | sta
  | ap
  deriving Repr, DecidableEq

/-- HTTP method of a registered URI handler. -/
inductive Method where
  | GET
  | POST
  deriving Repr, DecidableEq

/-- The four request handlers of `WifiManager`. -/
inductive HandlerName where
  | provisioningGet
  | connectPost
  | resetGet
  | faviconGet
  deriving Repr, DecidableEq

/-- A registered `httpd_uri_t`: URI, method and handler. -/
structure Endpoint where
  uri : String
  httpMethod : Method
  handler : HandlerName
  deriving Repr, DecidableEq

/-- The handlers `startWebServer(true)` registers (provisioning mode), in
registration order. -/
def provEndpoints : List Endpoint :=
  [⟨"/", .GET, .provisioningGet⟩, ⟨"/connect", .POST, .connectPost⟩,
   ⟨"/favicon.ico", .GET, .faviconGet⟩]

/-- The handlers `startWebServer(false)` registers (operational mode), in
registration order. -/
def opEndpoints : List Endpoint :=
  [⟨"/reset", .GET, .resetGet⟩, ⟨"/favicon.ico", .GET, .faviconGet⟩]

/-- The system state the mode-switching paths touch: the web-server handle
with its registered handlers (`m_server`), the two default network
interfaces, and the radio driver. -/
structure SysState where
  endpoints : Option (List Endpoint)
  netifSta : Bool
  netifAp : Bool
  wifiInited : Bool
  wifiStarted : Bool
  wifiMode : Option WifiMode
  deriving Repr, DecidableEq

/-- State at boot: no server handle, no interfaces, radio down. -/
def initSysState : SysState :=
  { endpoints := none, netifSta := false, netifAp := false,
    wifiInited := false, wifiStarted := false, wifiMode := none }

/-- `WifiManager::startWebServer(is_provisioning_mode)`: a no-op when a
server handle already exists; otherwise `httpd_start` (modelled as
succeeding) followed by registration of the mode's handlers plus the
favicon shortcut. -/
def startWebServer (is_provisioning_mode : Bool) (st : SysState) : SysState :=
  if st.endpoints.isSome then st
  else
    { st with
      endpoints := some (if is_provisioning_mode then provEndpoints else opEndpoints) }

/-- `WifiManager::stopWebServer`: stop and null the handle only when one
exists. -/
def stopWebServer (st : SysState) : SysState :=
  if st.endpoints.isSome then { st with endpoints := none } else st

/-- `esp_wifi_stop()`. -/
def stepWifiStop (st : SysState) : SysState := { st with wifiStarted := false }

/-- `esp_wifi_deinit()`: the driver, its mode included, is torn down. -/
def stepWifiDeinit (st : SysState) : SysState :=
  { st with wifiInited := false, wifiMode := none }

/-- `esp_netif_destroy` of the `WIFI_STA_DEF` interface when present. -/
def stepDestroySta (st : SysState) : SysState := { st with netifSta := false }

/-- `esp_netif_destroy` of the `WIFI_AP_DEF` interface when present. -/
def stepDestroyAp (st : SysState) : SysState := { st with netifAp := false }

/-- `esp_netif_create_default_wifi_sta()`. -/
def stepCreateSta (st : SysState) : SysState := { st with netifSta := true }

/-- `esp_netif_create_default_wifi_ap()`. -/
def stepCreateAp (st : SysState) : SysState := { st with netifAp := true }

/-- `esp_wifi_init(&cfg)`. -/
def stepWifiInit (st : SysState) : SysState := { st with wifiInited := true }

/-- `esp_wifi_set_mode(m)`. -/
def stepSetMode (m : WifiMode) (st : SysState) : SysState :=
  { st with wifiMode := some m }

/-- `esp_wifi_start()`. -/
def stepWifiStart (st : SysState) : SysState := { st with wifiStarted := true }

/-- Applying a sequence of primitive SDK calls in order. -/
def applySteps (st : SysState) (fs : List (SysState → SysState)) : SysState :=
  fs.foldl (fun s f => f s) st

theorem applySteps_append (st : SysState) (l₁ l₂ : List (SysState → SysState)) :
    applySteps st (l₁ ++ l₂) = applySteps (applySteps st l₁) l₂ :=
  List.foldl_append ..

/-- The SDK calls of `WifiManager::stopWifi`, in source order: stop the web
server, stop and deinitialize the radio, destroy both default interfaces. -/
def stopSteps : List (SysState → SysState) :=
  [stopWebServer, stepWifiStop, stepWifiDeinit, stepDestroySta, stepDestroyAp]

/-- `WifiManager::stopWifi`. -/
def stopWifi (st : SysState) : SysState := applySteps st stopSteps

/-- The SDK calls `WifiManager::connectToWifi` performs after its initial
`stopWifi` (the `wifi_config_t` programming carries no state the claims
observe). -/
def staSteps : List (SysState → SysState) :=
  [stepCreateSta, stepWifiInit, stepSetMode .sta, stepWifiStart]

/-- The SDK calls `WifiManager::startProvisioning` performs after its
initial `stopWifi`, the final `startWebServer(true)` included. -/
def apSteps : List (SysState → SysState) :=
  [stepCreateAp, stepWifiInit, stepSetMode .ap, stepWifiStart, startWebServer true]

/-- The `esp_err_t` results the connect path produces. -/
inductive EspErr where
  | ok
  | invalidArg
  deriving Repr, DecidableEq

/-- `WifiManager::connectToWifi`: an empty SSID is rejected up front
(`ESP_ERR_INVALID_ARG`, nothing touched); otherwise `stopWifi` first, then
the STA bring-up. -/
def connectToWifi (ssid _password : String) (st : SysState) : EspErr × SysState :=
  if ssid.isEmpty then (.invalidArg, st)
  else (.ok, applySteps st (stopSteps ++ staSteps))

/-- `WifiManager::startProvisioning`: `stopWifi` first, then the AP
bring-up and the provisioning web server. -/
def startProvisioning (st : SysState) : SysState :=
  applySteps st (stopSteps ++ apSteps)

/-- `WifiManager::start`: with stored credentials, attempt the STA connect
and wait up to 30 s on the event group; when `WIFI_CONNECTED_BIT` is among
the returned bits, start the operational web server and return; otherwise
(fail bit or timeout), and likewise when no credentials are stored, enter
provisioning. The bit observed by the wait is a parameter: it is produced
by the asynchronous event handler. -/
def start (load : LoadResult) (connectedBitSet : Bool) (st : SysState) : SysState :=
  match load with
  | .notFound => startProvisioning st
  | .ok ssid password =>
      let st1 := (connectToWifi ssid password st).2
      if connectedBitSet then startWebServer false st1
      else startProvisioning st1

/-- `stopWifi` always lands in the one torn-down state, whatever it starts
from. -/
theorem stopWifi_eq (st : SysState) :
    stopWifi st = { endpoints := none, netifSta := false, netifAp := false,
                    wifiInited := false, wifiStarted := false, wifiMode := none } := by
  unfold stopWifi applySteps stopSteps
  simp only [List.foldl]
  unfold stopWebServer
  split
  · rfl
  · next h =>
      have hnone : st.endpoints = none := by
        cases he : st.endpoints with
        | none => rfl
        | some l => rw [he] at h; simp at h
      simp [stepWifiStop, stepWifiDeinit, stepDestroySta, stepDestroyAp, hnone]

/-- The three radio mode-switching operations the supervisor can invoke. -/
inductive RadioOp where
  | connect (ssid password : String)
  | provision
  | stop
  deriving Repr, DecidableEq

/-- The primitive SDK calls an operation performs (an empty-SSID connect is
rejected before touching anything). -/
def opSteps : RadioOp → List (SysState → SysState)
  | .connect ssid _ => if ssid.isEmpty then [] else stopSteps ++ staSteps
  | .provision => stopSteps ++ apSteps
  | .stop => stopSteps

/-- Every state traversed while applying a list of primitive calls, the
entry state included. -/
def traceStates (st : SysState) : List (SysState → SysState) → List SysState
  | [] => [st]
  | f :: fs => st :: traceStates (f st) fs

/-- Every observable state along a sequence of mode-switching operations. -/
def opsTrace (st : SysState) : List RadioOp → List SysState
  | [] => [st]
  | op :: ops =>
      traceStates st (opSteps op) ++ opsTrace (applySteps st (opSteps op)) ops

/-- Whether the state holds both the STA and the AP interface at once. -/
def bothModes (st : SysState) : Bool := st.netifSta && st.netifAp

theorem netifSta_stopWebServer (st : SysState) :
    (stopWebServer st).netifSta = st.netifSta := by
  unfold stopWebServer; split <;> rfl

theorem netifAp_stopWebServer (st : SysState) :
    (stopWebServer st).netifAp = st.netifAp := by
  unfold stopWebServer; split <;> rfl

theorem netifSta_startWebServer (b : Bool) (st : SysState) :
    (startWebServer b st).netifSta = st.netifSta := by
  unfold startWebServer; split <;> rfl

theorem netifAp_startWebServer (b : Bool) (st : SysState) :
    (startWebServer b st).netifAp = st.netifAp := by
  unfold startWebServer; split <;> rfl

/-- The final state of an operation is among its traversed states. -/
theorem applySteps_mem_traceStates (fs : List (SysState → SysState)) :
    ∀ st : SysState, applySteps st fs ∈ traceStates st fs := by
  induction fs with
  | nil => intro st; simp [applySteps, traceStates]
  | cons f fs ih =>
      intro st
      simp only [applySteps, List.foldl, traceStates, List.mem_cons]
      exact Or.inr (ih (f st))

/-- No state traversed by a mode-switching operation holds both interfaces,
provided the entry state does not. -/
theorem opSteps_trace_bothModes (op : RadioOp) (st : SysState)
    (h : bothModes st = false) :
    ∀ s ∈ traceStates st (opSteps op), bothModes s = false := by
  have h' : (st.netifSta && st.netifAp) = false := h
  cases op with
  | connect ssid pw =>
      intro s hs
      by_cases he : ssid.isEmpty = true
      · simp only [opSteps, he, if_true, traceStates, List.mem_singleton] at hs
        subst hs; exact h
      · simp only [opSteps, he, if_false, Bool.false_eq_true, stopSteps, staSteps,
          List.cons_append, List.nil_append, traceStates, List.mem_cons,
          List.mem_singleton, List.not_mem_nil, or_false] at hs
        rcases hs with rfl | rfl | rfl | rfl | rfl | rfl | rfl | rfl | rfl | rfl <;>
          simp [bothModes, stepWifiStop, stepWifiDeinit, stepDestroySta, stepDestroyAp,
            stepCreateSta, stepWifiInit, stepSetMode, stepWifiStart,
            netifSta_stopWebServer, netifAp_stopWebServer, h']
  | provision =>
      intro s hs
      simp only [opSteps, stopSteps, apSteps, List.cons_append, List.nil_append,
        traceStates, List.mem_cons, List.mem_singleton, List.not_mem_nil, or_false] at hs
      rcases hs with rfl | rfl | rfl | rfl | rfl | rfl | rfl | rfl | rfl | rfl | rfl <;>
        simp [bothModes, stepWifiStop, stepWifiDeinit, stepDestroySta, stepDestroyAp,
          stepCreateAp, stepWifiInit, stepSetMode, stepWifiStart,
          netifSta_stopWebServer, netifAp_stopWebServer,
          netifSta_startWebServer, netifAp_startWebServer, h']
  | stop =>
      intro s hs
      simp only [opSteps, stopSteps, traceStates, List.mem_cons,
        List.mem_singleton, List.not_mem_nil, or_false] at hs
      rcases hs with rfl | rfl | rfl | rfl | rfl | rfl <;>
        simp [bothModes, stepWifiStop, stepWifiDeinit, stepDestroySta, stepDestroyAp,
          netifSta_stopWebServer, netifAp_stopWebServer, h']

/-- The exclusivity invariant is preserved by a whole operation. -/
theorem opSteps_final_bothModes (op : RadioOp) (st : SysState)
    (h : bothModes st = false) : bothModes (applySteps st (opSteps op)) = false :=
  opSteps_trace_bothModes op st h _ (applySteps_mem_traceStates (opSteps op) st)

/-- No observable state along any operation sequence from a clean entry
state holds both interfaces. -/
theorem opsTrace_bothModes (ops : List RadioOp) :
    ∀ st : SysState, bothModes st = false →
      ∀ s ∈ opsTrace st ops, bothModes s = false := by
  induction ops with
  | nil =>
      intro st h s hs
      simp only [opsTrace, List.mem_singleton] at hs
      subst hs; exact h
  | cons op ops ih =>
      intro st h s hs
      simp only [opsTrace, List.mem_append] at hs
      rcases hs with hs | hs
      · exact opSteps_trace_bothModes op st h s hs
      · exact ih _ (opSteps_final_bothModes op st h) s hs

/-- C7: the endpoint set is fixed by the mode `start` reaches. On every
provisioning path (no stored credentials, or the wait ends without
`WIFI_CONNECTED_BIT`) exactly `{GET /, POST /connect, GET /favicon.ico}` is
registered and `GET /reset` is not; on the connected path exactly
`{GET /reset, GET /favicon.ico}` is registered and `GET /` is not. -/
theorem c7_endpoints_by_mode :
    (∀ b : Bool, (start .notFound b initSysState).endpoints = some provEndpoints) ∧
    (∀ s p : String, (start (.ok s p) false initSysState).endpoints = some provEndpoints) ∧
    (∀ s p : String, (start (.ok s p) true initSysState).endpoints = some opEndpoints) ∧
    provEndpoints.map (fun e => (e.uri, e.httpMethod))
      = [("/", .GET), ("/connect", .POST), ("/favicon.ico", .GET)] ∧
    provEndpoints.all (fun e => e.uri != "/reset") = true ∧
    opEndpoints.map (fun e => (e.uri, e.httpMethod))
      = [("/reset", .GET), ("/favicon.ico", .GET)] ∧
    opEndpoints.all (fun e => e.uri != "/") = true := by
  refine ⟨?_, ?_, ?_, by decide, by decide, by decide, by decide⟩
  · intro b; rfl
  · intro s p
    by_cases h : s.isEmpty = true <;>
      simp [start, connectToWifi, h, startProvisioning, applySteps, stopSteps, apSteps,
        staSteps, stopWebServer, stepWifiStop, stepWifiDeinit, stepDestroySta,
        stepDestroyAp, stepCreateSta, stepCreateAp, stepWifiInit, stepSetMode,
        stepWifiStart, startWebServer, initSysState]
  · intro s p
    by_cases h : s.isEmpty = true <;>
      simp [start, connectToWifi, h, applySteps, stopSteps, staSteps, stopWebServer,
        stepWifiStop, stepWifiDeinit, stepDestroySta, stepDestroyAp, stepCreateSta,
        stepWifiInit, stepSetMode, stepWifiStart, startWebServer, initSysState]

/-- C8: no observable state along any sequence of mode switches from boot
holds both the STA and the AP interface; `stopWifi` is idempotent and tears
down the web server, the radio, and both interfaces; and both mode-switch
paths perform `stopWifi` first, doing all their bring-up from the torn-down
state. -/
theorem c8_mode_exclusivity :
    (∀ (ops : List RadioOp) (s : SysState),
      s ∈ opsTrace initSysState ops → bothModes s = false) ∧
    (∀ st : SysState, stopWifi (stopWifi st) = stopWifi st) ∧
    (∀ st : SysState, (stopWifi st).endpoints = none ∧
      (stopWifi st).wifiStarted = false ∧ (stopWifi st).wifiInited = false ∧
      (stopWifi st).netifSta = false ∧ (stopWifi st).netifAp = false) ∧
    (∀ (ssid pw : String) (st : SysState), ssid.isEmpty = false →
      (connectToWifi ssid pw st).2 = applySteps (stopWifi st) staSteps) ∧
    (∀ st : SysState, startProvisioning st = applySteps (stopWifi st) apSteps) := by
  refine ⟨?_, ?_, ?_, ?_, ?_⟩
  · intro ops s hs
    exact opsTrace_bothModes ops initSysState rfl s hs
  · intro st
    rw [stopWifi_eq st, stopWifi_eq]
  · intro st
    rw [stopWifi_eq st]
    exact ⟨rfl, rfl, rfl, rfl, rfl⟩
  · intro ssid pw st h
    simp only [connectToWifi, h, Bool.false_eq_true, if_false]
    rw [applySteps_append]
    rfl
  · intro st
    unfold startProvisioning
    rw [applySteps_append]
    rfl

/-- Witness for C8 at a concrete operation sequence and a concrete connect. -/
theorem c8_mode_exclusivity_witness :
    bothModes initSysState = false ∧
    (connectToWifi "HomeNet" "hunter2" initSysState).2
      = applySteps (stopWifi initSysState) staSteps :=
  ⟨c8_mode_exclusivity.1 [RadioOp.provision] initSysState (by decide),
   c8_mode_exclusivity.2.2.2.1 "HomeNet" "hunter2" initSysState (by decide)⟩

/-- One HTTP-server operation as invoked by the supervisor paths. -/
inductive WebOp where
  | start (is_provisioning_mode : Bool)
  | stop
  deriving Repr, DecidableEq

/-- Applying one HTTP-server operation. -/
def applyWebOp (st : SysState) : WebOp → SysState
  | .start b => startWebServer b st
  | .stop => stopWebServer st

/-- Applying a sequence of HTTP-server operations. -/
def runWebOps (st : SysState) (ops : List WebOp) : SysState :=
  ops.foldl applyWebOp st

/-- The registered endpoint set is preserved in the three-valued invariant
by every HTTP-server operation. -/
theorem applyWebOp_endpoints (st : SysState) (op : WebOp)
    (h : st.endpoints = none ∨ st.endpoints = some provEndpoints ∨
      st.endpoints = some opEndpoints) :
    (applyWebOp st op).endpoints = none ∨
      (applyWebOp st op).endpoints = some provEndpoints ∨
      (applyWebOp st op).endpoints = some opEndpoints := by
  cases op with
  | start b =>
      rcases h with h | h | h <;> cases b <;>
        simp [applyWebOp, startWebServer, h]
  | stop =>
      rcases h with h | h | h <;> simp [applyWebOp, stopWebServer, h]

/-- C10: `startWebServer` is a no-op whenever a server handle already
exists, `stopWebServer` is idempotent, and consequently the registered
endpoint set is always absent, exactly the provisioning set, or exactly the
operational set — never a mixture. -/
theorem c10_server_handle :
    (∀ (st : SysState) (b : Bool), st.endpoints.isSome = true →
      startWebServer b st = st) ∧
    (∀ st : SysState, stopWebServer (stopWebServer st) = stopWebServer st) ∧
    (∀ ops : List WebOp, (runWebOps initSysState ops).endpoints = none ∨
      (runWebOps initSysState ops).endpoints = some provEndpoints ∨
      (runWebOps initSysState ops).endpoints = some opEndpoints) := by
  refine ⟨?_, ?_, ?_⟩
  · intro st b h
    unfold startWebServer
    rw [if_pos h]
  · intro st
    by_cases h : st.endpoints.isSome = true <;> simp [stopWebServer, h]
  · have inv : ∀ (ops : List WebOp) (st : SysState),
        (st.endpoints = none ∨ st.endpoints = some provEndpoints ∨
          st.endpoints = some opEndpoints) →
        ((runWebOps st ops).endpoints = none ∨
          (runWebOps st ops).endpoints = some provEndpoints ∨
          (runWebOps st ops).endpoints = some opEndpoints) := by
      intro ops
      induction ops with
      | nil => intro st h; exact h
      | cons op ops ih =>
          intro st h
          exact ih _ (applyWebOp_endpoints st op h)
    intro ops
    exact inv ops initSysState (Or.inl rfl)

/-- Witness for C10: starting the server while a handle exists changes
nothing. -/
theorem c10_server_handle_witness :
    startWebServer true (startWebServer false initSysState)
      = startWebServer false initSysState :=
  c10_server_handle.1 (startWebServer false initSysState) true (by decide)
